import Mathlib

/-!
Verification of the request-validation pipeline in `src/app.py` and the
security automation script `automation/security_scan.py` of the
arize-POC repository, via a shallow embedding in Lean.

External collaborators (the Guardrails policy validator, the OpenAI model
client, the file system and subprocesses of the scanner) are modelled as
oracles: a value of an environment type records, for one request or one
scan, the outcome each external call would produce.  The handler and the
scanner are then pure functions of the request and this environment,
translated line by line from the Python source.
-/

namespace ArizePoc

/-- JSON values occurring in the response bodies built by `app.py`
(`jsonify` arguments): strings, booleans and arrays of strings. -/
inductive JVal where
  | s (v : String)
  | b (v : Bool)
  | arr (v : List String)
deriving DecidableEq

/-- Model of Python `str.strip()` with no argument: remove leading and
trailing whitespace. -/
def pyStrip (s : String) : String :=
  (((s.toList.dropWhile Char.isWhitespace).reverse.dropWhile Char.isWhitespace).reverse).asString

/-- Outcome of one `guard.validate(text)` call in `app.py`:
either it returns normally (with the object's `validated_output`
attribute when present, holding the possibly rewritten text),
or it raises an exception whose string form is `msg`
(the toxic-language validator is configured with `on_fail="exception"`). -/
inductive GuardResult where
  | ok (validatedOutput : Option String)
  | exn (msg : String)
deriving DecidableEq

/-- Outcome of the `client.chat.completions.create` call: the generated
text, or a raised transport/quota exception whose string form is `msg`. -/
inductive ModelResult where
  | ok (text : String)
  | exn (msg : String)
deriving DecidableEq

/-- The parsed JSON request body of `POST /ask`: `prompt` and `user_id`
are each present or absent (`data.get`). -/
structure AskRequest where
  prompt : Option String
  user_id : Option String
deriving DecidableEq

/-- Oracle for the external calls one `/ask` request can make, plus the
fresh `uuid.uuid4()` request identifier. -/
structure AskEnv where
  inputGuard : GuardResult
  modelCall : ModelResult
  outputGuard : GuardResult
  predictionId : String
deriving DecidableEq

/-- Result of the handler: HTTP status, the JSON body as an ordered
association list of fields, and instrumentation flags recording whether
the policy validator (on input) and the model client were invoked. -/
structure AskResult where
  status : Nat
  body : List (String × JVal)
  input_guard_called : Bool
  model_called : Bool
deriving DecidableEq

/-- The final `jsonify` of `ask` (lines 115-124 of `app.py`), shared by
the success, output-rejection and model-error paths. -/
def askOkBody (prediction_id prompt response_text : String)
    (guardrails_passed : Bool) (guardrails_actions : List String)
    (user_id : String) : List (String × JVal) :=
  [("prediction_id", .s prediction_id),
   ("prompt", .s prompt),
   ("response", .s response_text),
   ("guardrails_passed", .b guardrails_passed),
   ("guardrails_actions", .arr guardrails_actions),
   ("model", .s "gpt-4o-mini"),
   ("user_id", .s user_id),
   ("phoenix_url", .s "http://localhost:6006")]

/-- The `/ask` handler of `app.py`, translated from the source.
Step 0: read `prompt` (default `""`, stripped) and `user_id`
(default `"anonymous"`); an empty prompt yields 400 immediately.
Step 1: input validation; an exception yields 400 with the reason,
the action log and the prediction id.  Step 2: the model call; an
exception is caught by the outer handler, which records
`API Error: ...`, sets `response_text = "[ERROR]"` and
`guardrails_passed = False`, and still reaches the final 200 `jsonify`.
Step 3: output validation; an exception substitutes the placeholder
`"[Response modified by guardrails for safety]"` and clears
`guardrails_passed`. -/
def ask (req : AskRequest) (env : AskEnv) : AskResult :=
  let prompt0 := pyStrip (req.prompt.getD "")
  let user_id := req.user_id.getD "anonymous"
  if prompt0 = "" then
    { status := 400
      body := [("error", .s "Prompt is required")]
      input_guard_called := false
      model_called := false }
  else
    let prediction_id := env.predictionId
    match env.inputGuard with
    | .exn msg =>
      let guardrails_actions := ["Input validation failed: " ++ msg]
      let error_message := "Guardrails blocked request: " ++ msg
      { status := 400
        body := [("error", .s error_message),
                 ("guardrails_passed", .b false),
                 ("actions", .arr guardrails_actions),
                 ("prediction_id", .s prediction_id)]
        input_guard_called := true
        model_called := false }
    | .ok validatedOutput =>
      let prompt1 := validatedOutput.getD prompt0
      let guardrails_actions := ["Input validation passed"]
      match env.modelCall with
      | .exn e =>
        let error_message := "API Error: " ++ e
        { status := 200
          body := askOkBody prediction_id prompt1 "[ERROR]" false
            (guardrails_actions ++ [error_message]) user_id
          input_guard_called := true
          model_called := true }
      | .ok text =>
        match env.outputGuard with
        | .ok validatedOutput2 =>
          let response_text := validatedOutput2.getD text
          { status := 200
            body := askOkBody prediction_id prompt1 response_text true
              (guardrails_actions ++ ["Output validation passed"]) user_id
            input_guard_called := true
            model_called := true }
        | .exn msg =>
          { status := 200
            body := askOkBody prediction_id prompt1
              "[Response modified by guardrails for safety]" false
              (guardrails_actions ++ ["Output validation modified response: " ++ msg]) user_id
            input_guard_called := true
            model_called := true }

/-! Concrete requests and environments used by witnesses and
counterexamples. -/

/-- A request with a plain non-empty prompt. -/
def reqHello : AskRequest := { prompt := some "hello", user_id := none }

/-- A request without a `prompt` field. -/
def reqMissing : AskRequest := { prompt := none, user_id := some "u1" }

/-- A request whose prompt is whitespace-only. -/
def reqBlank : AskRequest := { prompt := some "   ", user_id := none }

/-- A request whose prompt contains PII that the validator rewrites. -/
def reqPII : AskRequest := { prompt := some "my email is jo@x.com", user_id := none }

/-- Environment: both validations accept unchanged, model succeeds. -/
def envAllOk : AskEnv :=
  { inputGuard := .ok none, modelCall := .ok "hi", outputGuard := .ok none,
    predictionId := "pid-0" }

/-- Environment: input accepted, model succeeds, output validation raises. -/
def envOutputRejected : AskEnv :=
  { inputGuard := .ok none, modelCall := .ok "something rude",
    outputGuard := .exn "toxic language detected", predictionId := "pid-1" }

/-- Environment: input validation raises. -/
def envInputRejected : AskEnv :=
  { inputGuard := .exn "toxic language detected", modelCall := .ok "hi",
    outputGuard := .ok none, predictionId := "pid-2" }

/-- Environment: input accepted, model call raises a quota error. -/
def envModelError : AskEnv :=
  { inputGuard := .ok none, modelCall := .exn "Rate limit exceeded",
    outputGuard := .ok none, predictionId := "pid-3" }

/-- Environment: input validation rewrites the prompt (PII redaction),
everything else succeeds. -/
def envRewrite : AskEnv :=
  { inputGuard := .ok (some "my email is <EMAIL_ADDRESS>"), modelCall := .ok "ok",
    outputGuard := .ok none, predictionId := "pid-4" }

/-- Environment: both validations accept, the output validator rewrites
the model text. -/
def envOutputRewritten : AskEnv :=
  { inputGuard := .ok none, modelCall := .ok "raw model text",
    outputGuard := .ok (some "redacted model text"), predictionId := "pid-5" }

/-! Shallow embedding of `automation/security_scan.py`.  Subprocess and
file-system outcomes are supplied by a `ScanEnv` oracle; report files
written to `security-reports/` are external side effects and are not
modelled beyond the in-memory `results` dictionary and the messages
passed to `self.log`. -/

/-- Model of the Python substring test `pat in s` for a non-empty
pattern. -/
def strContains (s pat : String) : Bool :=
  2 ≤ (s.splitOn pat).length

/-- Outcome of the Bandit subprocess calls and JSON-report parse in
`run_bandit_scan`: the severity totals when the JSON report exists,
or one of the failure modes (report not generated, `bandit` binary
missing, any other exception). -/
inductive BanditOutcome where
  | completed (high medium low : Nat)
  | reportMissing
  | notInstalled
  | failed (msg : String)
deriving DecidableEq

/-- Outcome of the `pip-audit` subprocess in `check_dependencies`:
the vulnerability count when it exits 0 and its JSON file exists;
`reportMissing` when it exits 0 but the file is absent (a silent
failure path); `unavailable` for a non-zero exit; plus the missing
binary and generic exception modes. -/
inductive PipAuditOutcome where
  | completed (vulns : Nat)
  | reportMissing
  | unavailable
  | notInstalled
  | failed (msg : String)
deriving DecidableEq

/-- Oracle for one scanner run: subprocess outcomes and the file
contents inspected by the configuration and controls checks
(`none` marks a missing file). -/
structure ScanEnv where
  bandit : BanditOutcome
  pipAudit : PipAuditOutcome
  envFileExists : Bool
  gitignoreContent : Option String
  appContent : Option String
deriving DecidableEq

/-- One entry of `self.results["findings"]`: the heterogeneous
dictionaries appended by the four data-producing checks. -/
inductive Finding where
  | bandit (high medium low : Nat) (reportPath : String)
  | deps (vulns : Nat) (reportPath : String)
  | config (issues : List String)
  | controls (enabled total : Nat) (details : List (String × Bool))
deriving DecidableEq

/-- The `"check"` field of a finding dictionary. -/
def Finding.checkName : Finding → String
  | .bandit .. => "Bandit SAST"
  | .deps .. => "Dependency Vulnerabilities"
  | .config _ => "API Configuration"
  | .controls .. => "Security Controls"

/-- `finding.get("high_severity", 0)`. -/
def Finding.high_severity : Finding → Nat
  | .bandit h _ _ _ => h
  | _ => 0

/-- `finding.get("medium_severity", 0)`. -/
def Finding.medium_severity : Finding → Nat
  | .bandit _ m _ _ => m
  | _ => 0

/-- `self.results["summary"]` as built by `generate_summary_report`. -/
structure ScanSummary where
  security_posture : String
  security_score : Nat
  total_checks : Nat
  high_severity_issues : Nat
  medium_severity_issues : Nat
  recommendation : String
deriving DecidableEq

/-- The scanner's mutable state: the `results` dictionary (timestamp
omitted) plus the list of `(level, message)` pairs passed to
`self.log`. -/
structure ScanResults where
  checks_performed : List String
  findings : List Finding
  summary : Option ScanSummary
  log : List (String × String)
deriving DecidableEq

/-- The state `SecurityScanner.__init__` sets up. -/
def initialResults : ScanResults :=
  { checks_performed := [], findings := [], summary := none, log := [] }

/-- Append one `self.log(message, level)` record. -/
def ScanResults.addLog (r : ScanResults) (level message : String) : ScanResults :=
  { r with log := r.log ++ [(level, message)] }

/-- `run_bandit_scan`, translated from the source: on a parsed JSON
report, record the check and a `Bandit SAST` finding with the severity
totals and return `True`; on each failure mode, log at `ERROR` level
and return `False`. -/
def run_bandit_scan (env : ScanEnv) (r : ScanResults) : Bool × ScanResults :=
  let r := r.addLog "INFO" "Running Bandit SAST scan..."
  match env.bandit with
  | .completed high medium low =>
    (true,
      { r with
        checks_performed := r.checks_performed ++ ["Bandit SAST Scan"]
        findings := r.findings ++
          [Finding.bandit high medium low "security-reports/bandit_report.json"]
        log := r.log ++
          [("INFO", "✓ Bandit scan completed. Found " ++ toString high ++ " high, "
            ++ toString medium ++ " medium, " ++ toString low ++ " low severity issues")] })
  | .reportMissing =>
    (false, r.addLog "ERROR" "Bandit report not generated")
  | .notInstalled =>
    (false, r.addLog "ERROR" "Bandit not installed. Run: pip install bandit")
  | .failed msg =>
    (false, r.addLog "ERROR" ("Bandit scan failed: " ++ msg))

/-- `check_dependencies`, translated from the source: on a successful
`pip-audit` run whose JSON file exists, record the check and finding and
return `True`; otherwise log a `WARNING` (except in the silent
exit-0-but-no-file path) and return `False`. -/
def check_dependencies (env : ScanEnv) (r : ScanResults) : Bool × ScanResults :=
  let r := r.addLog "INFO" "Checking dependencies for vulnerabilities..."
  match env.pipAudit with
  | .completed vulns =>
    (true,
      { r with
        checks_performed := r.checks_performed ++ ["Dependency Vulnerability Check"]
        findings := r.findings ++
          [Finding.deps vulns "security-reports/pip_audit.json"]
        log := r.log ++
          [("INFO", "✓ Dependency check completed. Found " ++ toString vulns
            ++ " vulnerabilities")] })
  | .reportMissing => (false, r)
  | .unavailable =>
    (false, r.addLog "WARNING" "pip-audit not available, skipping dependency check")
  | .notInstalled =>
    (false, r.addLog "WARNING" "pip-audit not installed. Install with: pip install pip-audit")
  | .failed msg =>
    (false, r.addLog "WARNING" ("Dependency check failed: " ++ msg))

/-- The `issues` list assembled by `validate_api_configuration`:
missing `.env`, `.env` not listed in `.gitignore` (or `.gitignore`
missing), and `debug=True` present in `src/app.py`. -/
def configIssues (env : ScanEnv) : List String :=
  (if env.envFileExists then [] else ["Missing .env file - API keys may be exposed"])
  ++ (match env.gitignoreContent with
      | some content =>
        if strContains content ".env" then [] else [".env not in .gitignore - credentials at risk"]
      | none => ["Missing .gitignore file"])
  ++ (match env.appContent with
      | some content =>
        if strContains content "debug=True" then ["Flask debug mode enabled - unsafe for production"] else []
      | none => [])

/-- `validate_api_configuration`, translated from the source: always
records the check and a finding with the issues list and returns
`True`, logging a `WARNING` when issues were found. -/
def validate_api_configuration (env : ScanEnv) (r : ScanResults) : Bool × ScanResults :=
  let r := r.addLog "INFO" "Validating API configuration..."
  let issues := configIssues env
  let finalLog :=
    if issues.isEmpty then
      ("INFO", "✓ Configuration validation passed")
    else
      ("WARNING", "⚠ Configuration check found " ++ toString issues.length ++ " issues")
  (true,
    { r with
      checks_performed := r.checks_performed ++ ["API Configuration Validation"]
      findings := r.findings ++ [Finding.config issues]
      log := r.log ++ [finalLog] })

/-- The `controls` dictionary of `check_security_controls`: each flag is
a substring test over `src/app.py` (all `False` when the file is
missing). -/
def securityControls (env : ScanEnv) : List (String × Bool) :=
  match env.appContent with
  | some content =>
    [("Guardrails AI", strContains content "from guardrails import Guard"),
     ("Phoenix Observability",
       strContains content "import phoenix" || strContains content "from phoenix"),
     ("Input Validation", strContains content "guard.validate"),
     ("PII Detection", strContains content "DetectPII"),
     ("Toxic Content Filter", strContains content "ToxicLanguage")]
  | none =>
    [("Guardrails AI", false), ("Phoenix Observability", false),
     ("Input Validation", false), ("PII Detection", false),
     ("Toxic Content Filter", false)]

/-- `check_security_controls`, translated from the source: always
records the check and a `Security Controls` finding with the count of
enabled controls, and returns `True`. -/
def check_security_controls (env : ScanEnv) (r : ScanResults) : Bool × ScanResults :=
  let r := r.addLog "INFO" "Checking security controls..."
  let controls := securityControls env
  let enabled := (controls.filter (fun c => c.2)).length
  let total := controls.length
  (true,
    { r with
      checks_performed := r.checks_performed ++ ["Security Controls Verification"]
      findings := r.findings ++ [Finding.controls enabled total controls]
      log := r.log ++
        [("INFO", "✓ Security controls check: " ++ toString enabled ++ "/"
          ++ toString total ++ " enabled")] })

/-- `_get_recommendation`. -/
def get_recommendation (posture : String) : String :=
  if posture = "GOOD" then
    "Security posture is acceptable. Continue monitoring and maintain current controls."
  else if posture = "FAIR" then
    "Some security issues detected. Review and address medium severity findings before production."
  else if posture = "NEEDS ATTENTION" then
    "High severity issues detected. Address critical findings immediately before deployment."
  else
    "Review findings and implement recommended fixes."

/-- The loop of `generate_summary_report` over `self.results["findings"]`:
each finding whose `"check"` is `"Bandit SAST"` overwrites the running
high/medium counts with its `high_severity`/`medium_severity` values
(default 0); the counts start at `(0, 0)`. -/
def banditSeverityCounts (findings : List Finding) : Nat × Nat :=
  findings.foldl
    (fun acc f =>
      if f.checkName = "Bandit SAST" then (f.high_severity, f.medium_severity) else acc)
    (0, 0)

/-- `generate_summary_report`, translated from the source: compute the
high/medium counts from the collected findings, apply the rule table
(`high > 0 → 60/"NEEDS ATTENTION"`, else `medium > 2 → 75/"FAIR"`, else
`90/"GOOD"`), and store the summary.  The JSON and markdown files are
external side effects and are not modelled. -/
def generate_summary_report (r : ScanResults) : Bool × ScanResults :=
  let r := r.addLog "INFO" "Generating security summary report..."
  let total_checks := r.checks_performed.length
  let counts := banditSeverityCounts r.findings
  let high_issues := counts.1
  let medium_issues := counts.2
  let posture :=
    if high_issues > 0 then "NEEDS ATTENTION"
    else if medium_issues > 2 then "FAIR"
    else "GOOD"
  let score : Nat :=
    if high_issues > 0 then 60
    else if medium_issues > 2 then 75
    else 90
  let r :=
    { r with
      summary := some
        { security_posture := posture
          security_score := score
          total_checks := total_checks
          high_severity_issues := high_issues
          medium_severity_issues := medium_issues
          recommendation := get_recommendation posture } }
  (true, r.addLog "INFO" "✓ Security summary saved to security-reports/security_summary.json")

/-- `run_all_checks`, translated from the source: the five checks run in
sequence from the initial state; each check's boolean result is
discarded, so no failure prevents the following checks. -/
def run_all_checks (env : ScanEnv) : ScanResults :=
  let r1 := (run_bandit_scan env initialResults).2
  let r2 := (check_dependencies env r1).2
  let r3 := (validate_api_configuration env r2).2
  let r4 := (check_security_controls env r3).2
  (generate_summary_report r4).2

/-- Whether `run_bandit_scan` returns `True` in a given environment. -/
def banditSucceeds : BanditOutcome → Bool
  | .completed .. => true
  | _ => false

/-- Whether `check_dependencies` returns `True` in a given
environment. -/
def pipAuditSucceeds : PipAuditOutcome → Bool
  | .completed _ => true
  | _ => false

/-- The last `self.log` record the bandit step emits for each outcome:
an `INFO` completion line on success, an `ERROR` line on every failure
mode. -/
def banditFinalLog : BanditOutcome → String × String
  | .completed high medium low =>
    ("INFO", "✓ Bandit scan completed. Found " ++ toString high ++ " high, "
      ++ toString medium ++ " medium, " ++ toString low ++ " low severity issues")
  | .reportMissing => ("ERROR", "Bandit report not generated")
  | .notInstalled => ("ERROR", "Bandit not installed. Run: pip install bandit")
  | .failed msg => ("ERROR", ("Bandit scan failed: " ++ msg))

/-- A results state whose findings contain no `Bandit SAST` entry. -/
def resultsNoBandit : ScanResults :=
  { checks_performed := ["Dependency Vulnerability Check"]
    findings := [Finding.deps 3 "security-reports/pip_audit.json"]
    summary := none
    log := [] }

/-- C1 (counterexample): when the output validation rejects, the handler
does return 200 with `guardrails_passed = false` and a fixed placeholder,
but the placeholder is `"[Response modified by guardrails for safety]"`,
not the string `"response modified by guardrails for safety"` quoted by
the specification. -/
theorem ask_output_rejected_spec_literal_counterexample :
    (ask reqHello envOutputRejected).status = 200 ∧
    (ask reqHello envOutputRejected).body.lookup "guardrails_passed" = some (.b false) ∧
    (ask reqHello envOutputRejected).body.lookup "response"
      ≠ some (.s "response modified by guardrails for safety") ∧
    (ask reqHello envOutputRejected).body.lookup "response"
      = some (.s "[Response modified by guardrails for safety]") := by
  refine ⟨rfl, rfl, ?_, rfl⟩
  decide

/-- C1 (amended): for every request whose prompt passes input validation
but whose model output is rejected by the policy validator, the handler
returns HTTP 200 with `guardrails_passed = false` and
`response = "[Response modified by guardrails for safety]"`; the request
is not failed. -/
theorem ask_output_rejected_returns_placeholder (req : AskRequest) (env : AskEnv)
    (vo : Option String) (t msg : String)
    (h1 : pyStrip (req.prompt.getD "") ≠ "")
    (h2 : env.inputGuard = .ok vo)
    (h3 : env.modelCall = .ok t)
    (h4 : env.outputGuard = .exn msg) :
    (ask req env).status = 200 ∧
    (ask req env).body.lookup "guardrails_passed" = some (.b false) ∧
    (ask req env).body.lookup "response"
      = some (.s "[Response modified by guardrails for safety]") := by
  simp [ask, askOkBody, h1, h2, h3, h4, List.lookup]

/-- Witness for C1 (amended) at a concrete request and environment. -/
theorem ask_output_rejected_returns_placeholder_witness :
    pyStrip (reqHello.prompt.getD "") ≠ "" ∧
    ((ask reqHello envOutputRejected).status = 200 ∧
     (ask reqHello envOutputRejected).body.lookup "guardrails_passed" = some (.b false) ∧
     (ask reqHello envOutputRejected).body.lookup "response"
       = some (.s "[Response modified by guardrails for safety]")) :=
  ⟨by decide,
   ask_output_rejected_returns_placeholder reqHello envOutputRejected none
     "something rude" "toxic language detected" (by decide) rfl rfl rfl⟩

/-- C2: for every request whose prompt the policy validator rejects, the
handler returns HTTP 400 carrying the rejection reason, the action log
with a rejection entry, and the request identifier, and the model client
is never invoked. -/
theorem ask_input_rejected_aborts (req : AskRequest) (env : AskEnv) (msg : String)
    (h1 : pyStrip (req.prompt.getD "") ≠ "")
    (h2 : env.inputGuard = .exn msg) :
    (ask req env).status = 400 ∧
    (ask req env).body.lookup "error"
      = some (.s ("Guardrails blocked request: " ++ msg)) ∧
    (ask req env).body.lookup "actions"
      = some (.arr ["Input validation failed: " ++ msg]) ∧
    (ask req env).body.lookup "prediction_id" = some (.s env.predictionId) ∧
    (ask req env).model_called = false := by
  simp [ask, h1, h2, List.lookup]

/-- Witness for C2 at a concrete request and environment. -/
theorem ask_input_rejected_aborts_witness :
    pyStrip (reqHello.prompt.getD "") ≠ "" ∧
    ((ask reqHello envInputRejected).status = 400 ∧
     (ask reqHello envInputRejected).body.lookup "error"
       = some (.s ("Guardrails blocked request: " ++ "toxic language detected")) ∧
     (ask reqHello envInputRejected).body.lookup "actions"
       = some (.arr ["Input validation failed: " ++ "toxic language detected"]) ∧
     (ask reqHello envInputRejected).body.lookup "prediction_id"
       = some (.s envInputRejected.predictionId) ∧
     (ask reqHello envInputRejected).model_called = false) :=
  ⟨by decide,
   ask_input_rejected_aborts reqHello envInputRejected "toxic language detected"
     (by decide) rfl⟩

/-- C3: for every request whose prompt is absent or empty after trimming
(including whitespace-only prompts), the handler returns HTTP 400 with
the fixed message `"Prompt is required"` immediately, invoking neither
the policy validator nor the model client. -/
theorem ask_empty_prompt_rejected (req : AskRequest) (env : AskEnv)
    (h : pyStrip (req.prompt.getD "") = "") :
    (ask req env).status = 400 ∧
    (ask req env).body = [("error", .s "Prompt is required")] ∧
    (ask req env).input_guard_called = false ∧
    (ask req env).model_called = false := by
  simp [ask, h]

/-- Witness for C3 at a whitespace-only prompt. -/
theorem ask_empty_prompt_rejected_witness :
    pyStrip (reqBlank.prompt.getD "") = "" ∧
    ((ask reqBlank envAllOk).status = 400 ∧
     (ask reqBlank envAllOk).body = [("error", .s "Prompt is required")] ∧
     (ask reqBlank envAllOk).input_guard_called = false ∧
     (ask reqBlank envAllOk).model_called = false) :=
  ⟨by decide, ask_empty_prompt_rejected reqBlank envAllOk (by decide)⟩

/-- C4 (counterexample): when the model call raises, the handler does
return 200 with `response = "[ERROR]"`, but the response body carries no
`error_message` field — the error string is only in the
`guardrails_actions` list. -/
theorem ask_model_error_no_error_message_field :
    (ask reqHello envModelError).status = 200 ∧
    (ask reqHello envModelError).body.lookup "response" = some (.s "[ERROR]") ∧
    (ask reqHello envModelError).body.lookup "error_message" = none := by
  decide

/-- C4 (amended): for every request where the model call raises a
transport/quota error, the error is caught, `"API Error: <msg>"` is
appended to the action list, and the handler returns HTTP 200 with
`response = "[ERROR]"` and `guardrails_passed = false`; the raw error
string is exposed to the client only through the `guardrails_actions`
list, there being no `error_message` field in the body. -/
theorem ask_model_error_degrades (req : AskRequest) (env : AskEnv)
    (vo : Option String) (e : String)
    (h1 : pyStrip (req.prompt.getD "") ≠ "")
    (h2 : env.inputGuard = .ok vo)
    (h3 : env.modelCall = .exn e) :
    (ask req env).status = 200 ∧
    (ask req env).body.lookup "response" = some (.s "[ERROR]") ∧
    (ask req env).body.lookup "guardrails_passed" = some (.b false) ∧
    (ask req env).body.lookup "guardrails_actions"
      = some (.arr ["Input validation passed", "API Error: " ++ e]) ∧
    (ask req env).body.lookup "error_message" = none := by
  simp [ask, askOkBody, h1, h2, h3, List.lookup]

/-- Witness for C4 (amended) at a concrete request and environment. -/
theorem ask_model_error_degrades_witness :
    pyStrip (reqHello.prompt.getD "") ≠ "" ∧
    ((ask reqHello envModelError).status = 200 ∧
     (ask reqHello envModelError).body.lookup "response" = some (.s "[ERROR]") ∧
     (ask reqHello envModelError).body.lookup "guardrails_passed" = some (.b false) ∧
     (ask reqHello envModelError).body.lookup "guardrails_actions"
       = some (.arr ["Input validation passed", "API Error: " ++ "Rate limit exceeded"]) ∧
     (ask reqHello envModelError).body.lookup "error_message" = none) :=
  ⟨by decide,
   ask_model_error_degrades reqHello envModelError none "Rate limit exceeded"
     (by decide) rfl rfl⟩

/-- C5: for every request where both validations accept and the model
call succeeds, the handler returns HTTP 200 with
`guardrails_passed = true` and `response` equal to the (possibly
validator-rewritten) model text. -/
theorem ask_all_accepted_ok (req : AskRequest) (env : AskEnv)
    (vo : Option String) (t : String) (vo2 : Option String)
    (h1 : pyStrip (req.prompt.getD "") ≠ "")
    (h2 : env.inputGuard = .ok vo)
    (h3 : env.modelCall = .ok t)
    (h4 : env.outputGuard = .ok vo2) :
    (ask req env).status = 200 ∧
    (ask req env).body.lookup "guardrails_passed" = some (.b true) ∧
    (ask req env).body.lookup "response" = some (.s (vo2.getD t)) := by
  simp [ask, askOkBody, h1, h2, h3, h4, List.lookup]

/-- Witness for C5 where the output validator rewrites the model text. -/
theorem ask_all_accepted_ok_witness :
    pyStrip (reqHello.prompt.getD "") ≠ "" ∧
    ((ask reqHello envOutputRewritten).status = 200 ∧
     (ask reqHello envOutputRewritten).body.lookup "guardrails_passed" = some (.b true) ∧
     (ask reqHello envOutputRewritten).body.lookup "response"
       = some (.s ((some "redacted model text").getD "raw model text"))) :=
  ⟨by decide,
   ask_all_accepted_ok reqHello envOutputRewritten none "raw model text"
     (some "redacted model text") (by decide) rfl rfl rfl⟩

/-- C6 (counterexample): a request without a prompt is rejected with 400,
but its body contains only the `error` field — no `guardrails_passed`,
`actions` or `prediction_id`. -/
theorem ask_missing_prompt_body_counterexample :
    (ask reqMissing envAllOk).status = 400 ∧
    (ask reqMissing envAllOk).body.lookup "error" = some (.s "Prompt is required") ∧
    (ask reqMissing envAllOk).body.lookup "guardrails_passed" = none ∧
    (ask reqMissing envAllOk).body.lookup "actions" = none ∧
    (ask reqMissing envAllOk).body.lookup "prediction_id" = none := by
  decide

/-- C6 (amended): when the policy validator rejects the input, the 400
body contains `error`, `guardrails_passed = false`, `actions` and
`prediction_id`; when the prompt is missing or empty, the 400 body
contains only the `error` field. -/
theorem ask_rejected_body_fields (req : AskRequest) (env : AskEnv) (msg : String) :
    (pyStrip (req.prompt.getD "") = "" →
      (ask req env).status = 400 ∧
      (ask req env).body = [("error", .s "Prompt is required")]) ∧
    (pyStrip (req.prompt.getD "") ≠ "" → env.inputGuard = .exn msg →
      (ask req env).status = 400 ∧
      (ask req env).body.lookup "error"
        = some (.s ("Guardrails blocked request: " ++ msg)) ∧
      (ask req env).body.lookup "guardrails_passed" = some (.b false) ∧
      (ask req env).body.lookup "actions"
        = some (.arr ["Input validation failed: " ++ msg]) ∧
      (ask req env).body.lookup "prediction_id" = some (.s env.predictionId)) := by
  constructor
  · intro h
    simp [ask, h]
  · intro h1 h2
    simp [ask, h1, h2, List.lookup]

/-- Witness for C6 (amended): the validator-rejection branch at a
concrete request and environment. -/
theorem ask_rejected_body_fields_witness :
    pyStrip (reqHello.prompt.getD "") ≠ "" ∧
    ((ask reqHello envInputRejected).status = 400 ∧
     (ask reqHello envInputRejected).body.lookup "error"
       = some (.s ("Guardrails blocked request: " ++ "toxic language detected")) ∧
     (ask reqHello envInputRejected).body.lookup "guardrails_passed" = some (.b false) ∧
     (ask reqHello envInputRejected).body.lookup "actions"
       = some (.arr ["Input validation failed: " ++ "toxic language detected"]) ∧
     (ask reqHello envInputRejected).body.lookup "prediction_id"
       = some (.s envInputRejected.predictionId)) :=
  ⟨by decide,
   (ask_rejected_body_fields reqHello envInputRejected "toxic language detected").2
     (by decide) rfl⟩

/-- C9: for every request whose input validation accepts with a
rewritten text, the `prompt` field of the 200 response equals the
validator-rewritten prompt sent to the model, whatever the model and
output-validation outcomes. -/
theorem ask_rewritten_prompt_echoed (req : AskRequest) (env : AskEnv) (newText : String)
    (h1 : pyStrip (req.prompt.getD "") ≠ "")
    (h2 : env.inputGuard = .ok (some newText)) :
    (ask req env).status = 200 ∧
    (ask req env).body.lookup "prompt" = some (.s newText) := by
  rcases hm : env.modelCall with t | e
  · rcases ho : env.outputGuard with vo2 | msg <;>
      simp [ask, askOkBody, h1, h2, hm, ho, List.lookup]
  · simp [ask, askOkBody, h1, h2, hm, List.lookup]

/-- Witness for C9: a PII prompt redacted by the validator is echoed in
its redacted form. -/
theorem ask_rewritten_prompt_echoed_witness :
    pyStrip (reqPII.prompt.getD "") ≠ "" ∧
    ((ask reqPII envRewrite).status = 200 ∧
     (ask reqPII envRewrite).body.lookup "prompt"
       = some (.s "my email is <EMAIL_ADDRESS>")) :=
  ⟨by decide,
   ask_rewritten_prompt_echoed reqPII envRewrite "my email is <EMAIL_ADDRESS>"
     (by decide) rfl⟩

/-- C7: for every collected results state, the summary follows the rule
table: a positive high-severity count yields score 60 and posture
`NEEDS ATTENTION`; otherwise more than two medium findings yield 75 and
`FAIR`; otherwise 90 and `GOOD`. -/
theorem generate_summary_report_rule_table (r : ScanResults) :
    ((generate_summary_report r).2.summary).map ScanSummary.security_score
      = some (if 0 < (banditSeverityCounts r.findings).1 then 60
              else if 2 < (banditSeverityCounts r.findings).2 then 75 else 90) ∧
    ((generate_summary_report r).2.summary).map ScanSummary.security_posture
      = some (if 0 < (banditSeverityCounts r.findings).1 then "NEEDS ATTENTION"
              else if 2 < (banditSeverityCounts r.findings).2 then "FAIR" else "GOOD") := by
  simp [generate_summary_report, ScanResults.addLog]

/-- C8: in every environment the five checks run in sequence to
completion — the configuration validation and security-controls entries
are always recorded and the summary is always generated, whether or not
the Bandit scan or the dependency check succeeded — and the bandit step
always leaves its final log record, which on every failure mode is an
`ERROR`-level message rather than an abort. -/
theorem run_all_checks_runs_all_checks (env : ScanEnv) :
    (run_all_checks env).checks_performed
      = (if banditSucceeds env.bandit then ["Bandit SAST Scan"] else [])
        ++ (if pipAuditSucceeds env.pipAudit then ["Dependency Vulnerability Check"] else [])
        ++ ["API Configuration Validation", "Security Controls Verification"] ∧
    ((run_all_checks env).summary).isSome = true ∧
    banditFinalLog env.bandit ∈ (run_all_checks env).log := by
  rcases env with ⟨b, p, e, g, a⟩
  cases b <;> cases p <;>
    simp [run_all_checks, run_bandit_scan, check_dependencies, validate_api_configuration,
      check_security_controls, generate_summary_report, initialResults, ScanResults.addLog,
      banditSucceeds, pipAuditSucceeds, banditFinalLog]

/-- The summary loop leaves its accumulator unchanged on a findings list
with no `Bandit SAST` entry. -/
theorem foldl_no_bandit (l : List Finding) (acc : Nat × Nat)
    (h : ∀ f ∈ l, f.checkName ≠ "Bandit SAST") :
    l.foldl (fun acc f =>
      if f.checkName = "Bandit SAST" then (f.high_severity, f.medium_severity) else acc) acc
      = acc := by
  induction l generalizing acc with
  | nil => rfl
  | cons f t ih =>
    rw [List.foldl_cons, if_neg (h f (by simp))]
    exact ih acc (fun g hg => h g (by simp [hg]))

/-- C10: when no `Bandit SAST` finding is present (for instance because
the Bandit scan failed or was skipped), the summary reports zero high-
and medium-severity counts and therefore posture `GOOD` with score
90. -/
theorem generate_summary_report_no_bandit_good (r : ScanResults)
    (h : ∀ f ∈ r.findings, f.checkName ≠ "Bandit SAST") :
    ((generate_summary_report r).2.summary).map ScanSummary.security_score = some 90 ∧
    ((generate_summary_report r).2.summary).map ScanSummary.security_posture = some "GOOD" ∧
    ((generate_summary_report r).2.summary).map ScanSummary.high_severity_issues = some 0 ∧
    ((generate_summary_report r).2.summary).map ScanSummary.medium_severity_issues
      = some 0 := by
  have hc : banditSeverityCounts r.findings = (0, 0) :=
    foldl_no_bandit r.findings (0, 0) h
  simp [generate_summary_report, ScanResults.addLog, hc]

/-- Witness for C10 at a results state holding only a dependency
finding. -/
theorem generate_summary_report_no_bandit_good_witness :
    (∀ f ∈ resultsNoBandit.findings, f.checkName ≠ "Bandit SAST") ∧
    (((generate_summary_report resultsNoBandit).2.summary).map ScanSummary.security_score
        = some 90 ∧
     ((generate_summary_report resultsNoBandit).2.summary).map ScanSummary.security_posture
        = some "GOOD" ∧
     ((generate_summary_report resultsNoBandit).2.summary).map
        ScanSummary.high_severity_issues = some 0 ∧
     ((generate_summary_report resultsNoBandit).2.summary).map
        ScanSummary.medium_severity_issues = some 0) :=
  ⟨by decide, generate_summary_report_no_bandit_good resultsNoBandit (by decide)⟩

end ArizePoc
